import Mathlib

/- Shallow embedding of the SHADE protocol Anchor program
(`programs/shade/src/lib.rs`): fog pools, spending authorizations,
staking tiers, and proportional fee distribution.

Machine integers (`u64`, `u128`, `u16`) are modelled as `Nat` with the
source's explicit `checked_add` / `checked_sub` / `checked_mul` /
`checked_div` bounds checks and `as u64` truncating casts made explicit;
`i64` timestamps are modelled as `Int`.  Public keys are modelled as
`Nat`, with `0` playing the role of `Pubkey::default()`.  The external
SPL token transfers are collaborator calls assumed to succeed atomically
(per the program's interface contract); account-constraint plumbing
(PDA seeds, bumps, signer equality checks) is resolved by the Anchor
runtime before each instruction body runs and carries no state of its
own, so it is not part of the embedded state transitions.  The
`purpose: String` field of an authorization is consulted only through
its length, so it is embedded as the natural number `purpose_len`. -/

namespace Shade

/-- Largest value of a Rust `u64`. -/
def U64MAX : Nat := 2 ^ 64 - 1

/-- Largest value of a Rust `u128`. -/
def U128MAX : Nat := 2 ^ 128 - 1

/-- Rust `u64::checked_add` (`None` exactly when the sum overflows). -/
def checkedAdd64 (a b : Nat) : Option Nat :=
  if a + b ≤ U64MAX then some (a + b) else none

/-- Rust `u64::checked_sub` (`None` exactly when the difference underflows). -/
def checkedSub (a b : Nat) : Option Nat :=
  if b ≤ a then some (a - b) else none

/-- Rust `u128::checked_mul` (`None` exactly when the product overflows). -/
def checkedMul128 (a b : Nat) : Option Nat :=
  if a * b ≤ U128MAX then some (a * b) else none

/-- Rust `as u64` truncating cast. -/
def toU64 (a : Nat) : Nat := a % 2 ^ 64

/-- The program's error enum `ShadeError` (lib.rs:1100-1130). -/
inductive ShadeError
  | InvalidAmount
  | PurposeTooLong
  | InvalidExpiry
  | AuthorizationInactive
  | AuthorizationExpired
  | ExceedsSpendingCap
  | Overflow
  | Unauthorized
  | FeeTooHigh
  | InsufficientStake
  | NoRewardsToClaim
  | NoStakers
  | NotStaking
  | ExceedsTierLimit
  deriving DecidableEq, Repr, Inhabited

/-- `ProtocolConfig` account (lib.rs:552-583).  The vault pubkeys
(`shade_mint`, `fee_vault`, `staking_vault`) and the PDA `bump` are
address plumbing never read by the instruction logic and are omitted. -/
structure ProtocolConfig where
  authority : Nat
  fee_basis_points : Nat
  total_staked : Nat
  total_fees_collected : Nat
  total_fees_distributed : Nat
  bronze_threshold : Nat
  silver_threshold : Nat
  gold_threshold : Nat
  bronze_cap_multiplier : Nat
  silver_cap_multiplier : Nat
  gold_cap_multiplier : Nat
  deriving DecidableEq, Repr, Inhabited

/-- `Staker` account (lib.rs:607-620), PDA `bump` omitted. -/
structure Staker where
  user : Nat
  staked_amount : Nat
  pending_rewards : Nat
  last_claim_timestamp : Int
  tier : Nat
  deriving DecidableEq, Repr, Inhabited

/-- `FogPool` account (lib.rs:635-652), `pool_seed` and `bump` omitted. -/
structure FogPool where
  authority : Nat
  vault : Nat
  total_deposited : Nat
  total_spent : Nat
  total_fees_generated : Nat
  active_authorizations : Nat
  deriving DecidableEq, Repr, Inhabited

/-- `Authorization` account (lib.rs:669-690), `purpose` embedded by its
length, PDA `bump` omitted. -/
structure Authorization where
  fog_pool : Nat
  authorized_spender : Nat
  issuer : Nat
  spending_cap : Nat
  amount_spent : Nat
  created_at : Int
  expires_at : Int
  purpose_len : Nat
  is_active : Bool
  deriving DecidableEq, Repr, Inhabited

/-- Helper `calculate_tier` (lib.rs:517-527). -/
def calculate_tier (staked_amount : Nat) (config : ProtocolConfig) : Nat :=
  if config.gold_threshold ≤ staked_amount then 3
  else if config.silver_threshold ≤ staked_amount then 2
  else if config.bronze_threshold ≤ staked_amount then 1
  else 0

/-- Helper `get_max_cap_for_tier` (lib.rs:529-543): a fixed base cap of
1,000,000,000 times the tier multiplier in percent, the multiplier
defaulting to `50` for any tier outside 1-3, computed in `u128` with
`checked_mul(..).unwrap_or(0).checked_div(100).unwrap_or(0) as u64`
(the division by the nonzero literal 100 never fails). -/
def get_max_cap_for_tier (tier : Nat) (config : ProtocolConfig) : Nat :=
  toU64 (((checkedMul128 1000000000
    (match tier with
     | 3 => config.gold_cap_multiplier
     | 2 => config.silver_cap_multiplier
     | 1 => config.bronze_cap_multiplier
     | _ => 50)).getD 0) / 100)

/-- `initialize_protocol` (lib.rs:23-57): rejects fee rates above 1000
basis points, zeroes all counters, and fixes the tier thresholds
(100 / 1,000 / 10,000 tokens at 6-decimal scale) and the per-tier cap
multipliers (100 / 500 / 1000 basis points of the base cap).
The Lean name is shortened from the Rust one. -/
def init_protocol (authority : Nat) (fee_basis_points : Nat) :
    Except ShadeError ProtocolConfig :=
  if 1000 < fee_basis_points then .error .FeeTooHigh
  else .ok
    { authority := authority
      fee_basis_points := fee_basis_points
      total_staked := 0
      total_fees_collected := 0
      total_fees_distributed := 0
      bronze_threshold := 100000000
      silver_threshold := 1000000000
      gold_threshold := 10000000000
      bronze_cap_multiplier := 100
      silver_cap_multiplier := 500
      gold_cap_multiplier := 1000 }

/-- The lazy initialization inside `stake` (lib.rs:98-104): a
zero-initialized staker account (`user == Pubkey::default()`, i.e. 0)
gets its fields set on first stake (the source's `let` mutation,
factored out as a helper; `tier` is untouched here and recomputed by
`stake` right after). -/
def init_if_fresh (userKey : Nat) (staker : Staker) (now : Int) : Staker :=
  if staker.user = 0 then
    { user := userKey, staked_amount := 0, pending_rewards := 0,
      last_claim_timestamp := now, tier := staker.tier }
  else staker

/-- `stake` (lib.rs:80-129).  `userKey` is the signing user's pubkey;
the token transfer into the staking vault is the external collaborator
and is assumed to succeed. -/
def stake (userKey : Nat) (staker : Staker) (config : ProtocolConfig)
    (amount : Nat) (now : Int) : Except ShadeError (Staker × ProtocolConfig) :=
  if amount = 0 then .error .InvalidAmount
  else
    match checkedAdd64 (init_if_fresh userKey staker now).staked_amount amount with
    | none => .error .Overflow
    | some newStaked =>
      match checkedAdd64 config.total_staked amount with
      | none => .error .Overflow
      | some newTotal =>
        .ok ({ init_if_fresh userKey staker now with
                 staked_amount := newStaked,
                 tier := calculate_tier newStaked config },
             { config with total_staked := newTotal })

/-- `unstake` (lib.rs:132-181).  The outgoing token transfer is assumed
to succeed; the protocol total uses `saturating_sub` (truncated `Nat`
subtraction), while the staker balance uses `checked_sub`. -/
def unstake (staker : Staker) (config : ProtocolConfig) (amount : Nat) :
    Except ShadeError (Staker × ProtocolConfig) :=
  if amount = 0 then .error .InvalidAmount
  else if staker.staked_amount < amount then .error .InsufficientStake
  else
    match checkedSub staker.staked_amount amount with
    | none => .error .Overflow
    | some newStaked =>
      .ok ({ staker with
               staked_amount := newStaked,
               tier := calculate_tier newStaked config },
           { config with total_staked := config.total_staked - amount })

/-- `claim_rewards` (lib.rs:184-226): pays out the full pending amount
(external transfer assumed to succeed), zeroes it, stamps the claim
time, and advances the protocol's `total_fees_distributed`. -/
def claim_rewards (staker : Staker) (config : ProtocolConfig) (now : Int) :
    Except ShadeError (Staker × ProtocolConfig) :=
  if staker.pending_rewards = 0 then .error .NoRewardsToClaim
  else
    match checkedAdd64 config.total_fees_distributed staker.pending_rewards with
    | none => .error .Overflow
    | some newDistributed =>
      .ok ({ staker with pending_rewards := 0, last_claim_timestamp := now },
           { config with total_fees_distributed := newDistributed })

/-- Result of `distribute_fees`: the updated staker and whether the
`FeesDistributed` event was emitted. -/
structure DistributeResult where
  staker : Staker
  emitted : Bool
  deriving DecidableEq, Repr, Inhabited

/-- `distribute_fees` (lib.rs:229-268): requires stakers to exist and
the target to be staking, computes the undistributed pool with
`saturating_sub`, and credits the staker's proportional share (widened
`u128` multiply, `checked_div` by the guarded-nonzero `total_staked`,
truncating `as u64` cast).  A zero undistributed pool or zero share is
a silent success.  Note the config is NOT mutated: `total_fees_distributed`
is not advanced here. -/
def distribute_fees (config : ProtocolConfig) (staker : Staker) :
    Except ShadeError DistributeResult :=
  if config.total_staked = 0 then .error .NoStakers
  else if staker.staked_amount = 0 then .error .NotStaking
  else
    let undistributed := config.total_fees_collected - config.total_fees_distributed
    if undistributed = 0 then .ok { staker := staker, emitted := false }
    else
      match checkedMul128 undistributed staker.staked_amount with
      | none => .error .Overflow
      | some product =>
        let share := toU64 (product / config.total_staked)
        if share = 0 then .ok { staker := staker, emitted := false }
        else
          match checkedAdd64 staker.pending_rewards share with
          | none => .error .Overflow
          | some newPending =>
            .ok { staker := { staker with pending_rewards := newPending },
                  emitted := true }

/-- `initialize_fog_pool` (lib.rs:275-296): a fresh pool with all
counters zero.  The Lean name is shortened from the Rust one. -/
def init_fog_pool (authority vault : Nat) : FogPool :=
  { authority := authority, vault := vault, total_deposited := 0,
    total_spent := 0, total_fees_generated := 0, active_authorizations := 0 }

/-- `deposit_to_fog` (lib.rs:299-327): positive-amount deposit into the
pool vault (external transfer assumed to succeed). -/
def deposit_to_fog (fog_pool : FogPool) (amount : Nat) :
    Except ShadeError FogPool :=
  if amount = 0 then .error .InvalidAmount
  else
    match checkedAdd64 fog_pool.total_deposited amount with
    | none => .error .Overflow
    | some newDeposited => .ok { fog_pool with total_deposited := newDeposited }

/-- `create_authorization` (lib.rs:335-385).  The staker account is an
`Option` in the source (`Option<Account<Staker>>`): the tier-cap check
at lib.rs:349-353 runs only `if let Some(staker)`.  The issuer/authority
equality is an account constraint resolved before the body runs. -/
def create_authorization (config : ProtocolConfig) (fog_pool : FogPool)
    (staker : Option Staker) (fogPoolKey spenderKey issuerKey : Nat)
    (spending_cap : Nat) (expires_at now : Int) (purpose_len : Nat) :
    Except ShadeError (Authorization × FogPool) :=
  if spending_cap = 0 then .error .InvalidAmount
  else if 64 < purpose_len then .error .PurposeTooLong
  else if expires_at ≤ now then .error .InvalidExpiry
  else if (match staker with
           | some st => decide (get_max_cap_for_tier st.tier config < spending_cap)
           | none => false) then .error .ExceedsTierLimit
  else
    match checkedAdd64 fog_pool.active_authorizations 1 with
    | none => .error .Overflow
    | some newCount =>
      .ok ({ fog_pool := fogPoolKey, authorized_spender := spenderKey,
             issuer := issuerKey, spending_cap := spending_cap,
             amount_spent := 0, created_at := now, expires_at := expires_at,
             purpose_len := purpose_len, is_active := true },
           { fog_pool with active_authorizations := newCount })

/-- Result of a successful `spend`: the three updated accounts plus the
`fee`, `net_amount` and post-update `remaining` carried by the
`SpendExecuted` event. -/
structure SpendResult where
  authorization : Authorization
  fog_pool : FogPool
  config : ProtocolConfig
  fee : Nat
  net_amount : Nat
  remaining : Nat
  deriving DecidableEq, Repr, Inhabited

/-- `spend` (lib.rs:389-488): validates activity, expiry and remaining
cap, computes the fee with widened `u128` arithmetic
(`checked_div(10000)` by a nonzero literal never fails, `as u64`
truncating cast), performs the two external transfers (assumed to
succeed), and advances the authorization, pool and protocol counters
with checked adds.  The emitted `remaining` is the plain subtraction
`spending_cap - amount_spent` after the update.  The source binds the
fee once (`let fee = ...`); the pure expression is inlined here. -/
def spend (authorization : Authorization) (fog_pool : FogPool)
    (config : ProtocolConfig) (amount : Nat) (now : Int) :
    Except ShadeError SpendResult :=
  if authorization.is_active = false then .error .AuthorizationInactive
  else if authorization.expires_at ≤ now then .error .AuthorizationExpired
  else
    match checkedSub authorization.spending_cap authorization.amount_spent with
    | none => .error .Overflow
    | some remaining =>
      if remaining < amount then .error .ExceedsSpendingCap
      else
        match checkedMul128 amount config.fee_basis_points with
        | none => .error .Overflow
        | some product =>
          match checkedSub amount (toU64 (product / 10000)) with
          | none => .error .Overflow
          | some net_amount =>
            match checkedAdd64 authorization.amount_spent amount with
            | none => .error .Overflow
            | some newSpent =>
              match checkedAdd64 fog_pool.total_spent amount,
                    checkedAdd64 fog_pool.total_fees_generated (toU64 (product / 10000)),
                    checkedAdd64 config.total_fees_collected (toU64 (product / 10000)) with
              | some newSpentTotal, some newFeesGen, some newCollected =>
                .ok { authorization := { authorization with amount_spent := newSpent },
                      fog_pool := { fog_pool with
                                      total_spent := newSpentTotal,
                                      total_fees_generated := newFeesGen },
                      config := { config with total_fees_collected := newCollected },
                      fee := toU64 (product / 10000),
                      net_amount := net_amount,
                      remaining := authorization.spending_cap - newSpent }
              | _, _, _ => .error .Overflow

/-- `revoke_authorization` (lib.rs:491-510): fails if already inactive,
otherwise one-way flips `is_active` and decrements the pool's
`active_authorizations` with `saturating_sub` (truncated `Nat`
subtraction). -/
def revoke_authorization (authorization : Authorization) (fog_pool : FogPool) :
    Except ShadeError (Authorization × FogPool) :=
  if authorization.is_active = false then .error .AuthorizationInactive
  else
    .ok ({ authorization with is_active := false },
         { fog_pool with active_authorizations := fog_pool.active_authorizations - 1 })

/-- Extract the payload of a successful result (fallback `default`). -/
def exOk {α : Type} [Inhabited α] : Except ShadeError α → α
  | .ok a => a
  | .error _ => default

/-- The error carried by a result, if any (`none` means success). -/
def errOf {α : Type} : Except ShadeError α → Option ShadeError
  | .error e => some e
  | .ok _ => none

/-- Modelled from the spec: "returns the highest tier whose threshold is
met" — `tier_meets config s t` holds when staked amount `s` meets tier
`t`'s threshold (tier 0 has no threshold and is always met).  This is a
second, spec-side definition used to state that `calculate_tier` indeed
returns the greatest tier in 0..3 whose threshold is met. -/
def tier_meets (config : ProtocolConfig) (s t : Nat) : Bool :=
  match t with
  | 3 => decide (config.gold_threshold ≤ s)
  | 2 => decide (config.silver_threshold ≤ s)
  | 1 => decide (config.bronze_threshold ≤ s)
  | _ => true

/-- One successful post-creation state transition of an authorization
account: a successful `spend` or a successful `revoke_authorization`
(the only two instructions that mutate an `Authorization`). -/
inductive AuthStep : Authorization → Authorization → Prop
  | stepSpend (a : Authorization) (fog_pool : FogPool) (config : ProtocolConfig)
      (amount : Nat) (now : Int) (r : SpendResult)
      (h : spend a fog_pool config amount now = Except.ok r) :
      AuthStep a r.authorization
  | stepRevoke (a : Authorization) (fog_pool : FogPool) (a' : Authorization)
      (fog_pool' : FogPool)
      (h : revoke_authorization a fog_pool = Except.ok (a', fog_pool')) :
      AuthStep a a'

/-- A zero-initialized staker account, exactly as Anchor allocates it
before the lazy initialization in `stake`. -/
def freshStaker : Staker :=
  { user := 0, staked_amount := 0, pending_rewards := 0,
    last_claim_timestamp := 0, tier := 0 }

/-- The protocol configuration produced by `initialize_protocol` with a
100-basis-point (1%) fee. -/
def cfg0 : ProtocolConfig :=
  { authority := 1, fee_basis_points := 100, total_staked := 0,
    total_fees_collected := 0, total_fees_distributed := 0,
    bronze_threshold := 100000000, silver_threshold := 1000000000,
    gold_threshold := 10000000000, bronze_cap_multiplier := 100,
    silver_cap_multiplier := 500, gold_cap_multiplier := 1000 }

/-- A freshly initialized fog pool. -/
def pool0 : FogPool := init_fog_pool 1 6

/-- A staker record holding a stake but at tier 0 (below every
threshold), e.g. after staking 50 token units. -/
def stakerA : Staker :=
  { user := 2, staked_amount := 50, pending_rewards := 0,
    last_claim_timestamp := 0, tier := 0 }

/-- A staker record at tier 0 with nothing staked (e.g. after a full
unstake: the record persists). -/
def tier0Staker : Staker :=
  { user := 4, staked_amount := 0, pending_rewards := 0,
    last_claim_timestamp := 0, tier := 0 }

/-- An active, unexpired authorization whose cap is fully consumed
(`amount_spent == spending_cap`). -/
def authEx : Authorization :=
  { fog_pool := 7, authorized_spender := 8, issuer := 1, spending_cap := 5,
    amount_spent := 5, created_at := 0, expires_at := 100, purpose_len := 0,
    is_active := true }

/-- A revoked (inactive) authorization. -/
def authInactive : Authorization :=
  { fog_pool := 7, authorized_spender := 8, issuer := 1, spending_cap := 5,
    amount_spent := 0, created_at := 0, expires_at := 100, purpose_len := 0,
    is_active := false }

/-- An active authorization with a 1,000,000 cap and nothing spent. -/
def auth1M : Authorization :=
  { fog_pool := 7, authorized_spender := 8, issuer := 1,
    spending_cap := 1000000, amount_spent := 0, created_at := 0,
    expires_at := 100, purpose_len := 0, is_active := true }

/-- The result of the spec scenario spend: fee rate 100 bps, cap
1,000,000, spend 100,000. -/
def c5r : SpendResult := exOk (spend auth1M pool0 cfg0 100000 0)

/-- The intermediate state of the C9 round trip: stake 100 from a fresh
staker into the freshly initialized protocol. -/
def c9p1 : Staker × ProtocolConfig := exOk (stake 2 freshStaker cfg0 100 4)

/-- The final state of the C9 round trip: unstake the same 100. -/
def c9p2 : Staker × ProtocolConfig := exOk (unstake c9p1.1 c9p1.2 100)

/-- A concrete operation sequence from protocol initialization:
initialize at a 1000-bps (10%) fee; two users stake 50 each; a fog pool
and an authorization are created; a spend of 1,000 collects a fee of
100; `distribute_fees` is called twice for the first staker and once
for the second (nothing advances `total_fees_distributed`); both then
claim.  Every call in the sequence succeeds. -/
def c3_trace : Except ShadeError ProtocolConfig := do
  let cfgA ← init_protocol 1 1000
  let (stA, cfg1) ← stake 2 freshStaker cfgA 50 0
  let (stB, cfg2) ← stake 3 freshStaker cfg1 50 0
  let poolA := init_fog_pool 9 10
  let (auth0, pool1) ← create_authorization cfg2 poolA none 7 8 9 1000000 1000 0 0
  let r ← spend auth0 pool1 cfg2 1000 0
  let cfg3 := r.config
  let d1 ← distribute_fees cfg3 stA
  let d2 ← distribute_fees cfg3 d1.staker
  let d3 ← distribute_fees cfg3 stB
  let (_, cfg4) ← claim_rewards d2.staker cfg3 0
  let (_, cfg5) ← claim_rewards d3.staker cfg4 0
  pure cfg5

/-- The fee totals `(total_fees_collected, total_fees_distributed)` at
the end of `c3_trace`, or `none` had any call failed. -/
def c3_totals : Option (Nat × Nat) :=
  match c3_trace with
  | .ok c => some (c.total_fees_collected, c.total_fees_distributed)
  | .error _ => none

/-- Successful `checked_add` means no overflow and an exact sum. -/
theorem checkedAdd64_some {a b c : Nat} (h : checkedAdd64 a b = some c) :
    a + b ≤ U64MAX ∧ c = a + b := by
  unfold checkedAdd64 at h
  split at h
  next hle => injection h with h2; exact ⟨hle, h2.symm⟩
  next => exact Option.noConfusion h

/-- Successful `checked_sub` means no underflow and an exact difference. -/
theorem checkedSub_some {a b c : Nat} (h : checkedSub a b = some c) :
    b ≤ a ∧ c = a - b := by
  unfold checkedSub at h
  split at h
  next hle => injection h with h2; exact ⟨hle, h2.symm⟩
  next => exact Option.noConfusion h

/-- Successful `u128` `checked_mul` means no overflow and an exact product. -/
theorem checkedMul128_some {a b c : Nat} (h : checkedMul128 a b = some c) :
    a * b ≤ U128MAX ∧ c = a * b := by
  unfold checkedMul128 at h
  split at h
  next hle => injection h with h2; exact ⟨hle, h2.symm⟩
  next => exact Option.noConfusion h

/-- What a successful `spend` did to the authorization and the fee
fields: `amount_spent` grows by exactly `amount` and stays within the
cap, no other authorization field changes, the fee is the truncated
`amount * fee_bps / 10000`, and `net_amount` is `amount - fee` with
`fee ≤ amount`; the protocol's collected total grows by the fee. -/
theorem spend_ok_spec {authorization : Authorization} {fog_pool : FogPool}
    {config : ProtocolConfig} {amount : Nat} {now : Int} {r : SpendResult}
    (h : spend authorization fog_pool config amount now = .ok r) :
    r.authorization.amount_spent = authorization.amount_spent + amount ∧
    r.authorization.spending_cap = authorization.spending_cap ∧
    r.authorization.is_active = authorization.is_active ∧
    r.authorization.expires_at = authorization.expires_at ∧
    authorization.amount_spent + amount ≤ authorization.spending_cap ∧
    r.fee = toU64 (amount * config.fee_basis_points / 10000) ∧
    r.fee ≤ amount ∧
    r.net_amount = amount - r.fee ∧
    r.config.total_fees_collected = config.total_fees_collected + r.fee := by
  unfold spend at h
  split at h
  next => exact Except.noConfusion h
  next hact =>
    split at h
    next => exact Except.noConfusion h
    next hexp =>
      split at h
      next => exact Except.noConfusion h
      next remaining hsub =>
        obtain ⟨hle, hrem⟩ := checkedSub_some hsub
        split at h
        next => exact Except.noConfusion h
        next hamt =>
          split at h
          next => exact Except.noConfusion h
          next product hmul =>
            obtain ⟨-, hprod⟩ := checkedMul128_some hmul
            split at h
            next => exact Except.noConfusion h
            next net hnet =>
              obtain ⟨hfeele, hnetv⟩ := checkedSub_some hnet
              split at h
              next => exact Except.noConfusion h
              next newSpent hadd =>
                obtain ⟨-, hspentv⟩ := checkedAdd64_some hadd
                split at h
                next ts tf tc hts htf htc =>
                  obtain ⟨-, htcv⟩ := checkedAdd64_some htc
                  injection h with h2
                  subst h2
                  subst hprod hspentv hnetv htcv hrem
                  refine ⟨rfl, rfl, rfl, rfl, by omega, rfl, hfeele, rfl, rfl⟩
                next => exact Except.noConfusion h

/-- A successful `revoke_authorization` flips `is_active` and nothing
else on the authorization, and saturating-decrements the pool count. -/
theorem revoke_ok_spec {a : Authorization} {pool : FogPool}
    {a' : Authorization} {pool' : FogPool}
    (h : revoke_authorization a pool = .ok (a', pool')) :
    a' = { a with is_active := false } ∧
    pool' = { pool with
                active_authorizations := pool.active_authorizations - 1 } := by
  unfold revoke_authorization at h
  split at h
  next => exact Except.noConfusion h
  next =>
    injection h with h2
    injection h2 with h3 h4
    exact ⟨h3.symm, h4.symm⟩

/-- A successful `create_authorization` produces an authorization with
nothing spent, the requested cap, and `is_active` set. -/
theorem create_ok_spec {config : ProtocolConfig} {pool : FogPool}
    {staker : Option Staker} {fpk sk ik cap : Nat} {expires now : Int}
    {plen : Nat} {auth : Authorization} {pool' : FogPool}
    (h : create_authorization config pool staker fpk sk ik cap expires now plen
          = .ok (auth, pool')) :
    auth.amount_spent = 0 ∧ auth.spending_cap = cap ∧
    auth.is_active = true ∧ auth.expires_at = expires := by
  unfold create_authorization at h
  split at h
  next => exact Except.noConfusion h
  next =>
    split at h
    next => exact Except.noConfusion h
    next =>
      split at h
      next => exact Except.noConfusion h
      next =>
        split at h
        next => exact Except.noConfusion h
        next =>
          split at h
          next => exact Except.noConfusion h
          next =>
            injection h with h2
            injection h2 with h3 h4
            subst h3
            exact ⟨rfl, rfl, rfl, rfl⟩

/-- The lazy initialization leaves a fresh account's balance at zero and
an existing account's balance untouched. -/
theorem init_if_fresh_staked (userKey : Nat) (st : Staker) (now : Int) :
    (init_if_fresh userKey st now).staked_amount =
      if st.user = 0 then 0 else st.staked_amount := by
  unfold init_if_fresh
  split <;> rfl

/-- What a successful `stake` did: the staked balance (zeroed first if
the account was fresh) grows by `amount`, the tier is recomputed from
the new balance, and the protocol total grows by `amount`. -/
theorem stake_ok_spec {userKey : Nat} {st : Staker} {config : ProtocolConfig}
    {amount : Nat} {now : Int} {st1 : Staker} {cfg1 : ProtocolConfig}
    (h : stake userKey st config amount now = .ok (st1, cfg1)) :
    st1.staked_amount = (if st.user = 0 then 0 else st.staked_amount) + amount ∧
    st1.tier = calculate_tier st1.staked_amount config ∧
    cfg1 = { config with total_staked := config.total_staked + amount } ∧
    0 < amount := by
  unfold stake at h
  split at h
  next => exact Except.noConfusion h
  next hampos =>
    split at h
    next => exact Except.noConfusion h
    next newStaked hadd =>
      split at h
      next => exact Except.noConfusion h
      next newTotal hadd2 =>
        obtain ⟨-, hv⟩ := checkedAdd64_some hadd
        obtain ⟨-, hv2⟩ := checkedAdd64_some hadd2
        injection h with h2
        injection h2 with h3 h4
        subst h3 h4 hv2 hv
        refine ⟨?_, rfl, rfl, Nat.pos_of_ne_zero hampos⟩
        simpa using congrArg (· + amount) (init_if_fresh_staked userKey st now)

/-- What a successful `unstake` did: the staked balance shrinks by
`amount` (which must have been covered), the tier is recomputed from
the new balance, and the protocol total saturating-shrinks by `amount`. -/
theorem unstake_ok_spec {st : Staker} {config : ProtocolConfig}
    {amount : Nat} {st1 : Staker} {cfg1 : ProtocolConfig}
    (h : unstake st config amount = .ok (st1, cfg1)) :
    st1.staked_amount = st.staked_amount - amount ∧
    amount ≤ st.staked_amount ∧
    st1.tier = calculate_tier st1.staked_amount config ∧
    cfg1 = { config with total_staked := config.total_staked - amount } ∧
    0 < amount := by
  unfold unstake at h
  split at h
  next => exact Except.noConfusion h
  next hampos =>
    split at h
    next => exact Except.noConfusion h
    next hcov =>
      split at h
      next => exact Except.noConfusion h
      next newStaked hsub =>
        obtain ⟨-, hv⟩ := checkedSub_some hsub
        injection h with h2
        injection h2 with h3 h4
        subst h3 h4 hv
        exact ⟨rfl, Nat.le_of_not_lt hcov, rfl, rfl, Nat.pos_of_ne_zero hampos⟩

/-- Any single post-creation authorization step preserves the spending
cap, never decreases `amount_spent`, and preserves the cap bound. -/
theorem authStep_spec {a b : Authorization} (h : AuthStep a b) :
    a.amount_spent ≤ b.amount_spent ∧ b.spending_cap = a.spending_cap ∧
    (a.amount_spent ≤ a.spending_cap → b.amount_spent ≤ b.spending_cap) := by
  cases h with
  | stepSpend pool config amount now r hs =>
    obtain ⟨h1, h2, -, -, h5, -⟩ := spend_ok_spec hs
    refine ⟨by omega, h2, fun _ => by omega⟩
  | stepRevoke pool aNext poolNext hr =>
    obtain ⟨h1, -⟩ := revoke_ok_spec hr
    subst h1
    exact ⟨Nat.le_refl _, rfl, fun hle => hle⟩

/-- C1 (counterexample): with the freshly initialized protocol
configuration, a spender with NO staking record requesting a cap of
10,000,001 does NOT fail `ExceedsTierLimit` — the call succeeds, because
the tier check at lib.rs:349-353 runs only when a staker account is
supplied; and even a tier-0 record holder succeeds at 10,000,001, since
the 50-bps default bound is 500,000,000, not 5,000,000. -/
theorem c1_counterexample :
    errOf (create_authorization cfg0 pool0 none 7 8 9 10000001 100 0 0) = none ∧
    errOf (create_authorization cfg0 pool0 (some tier0Staker) 7 8 9 10000001 100 0 0)
      = none := by
  exact ⟨rfl, rfl⟩

/-- C1 (amended): when no staker account is supplied,
`create_authorization` skips the tier-cap check entirely and cannot fail
with `ExceedsTierLimit` (any valid request succeeds); the 50-bps default
multiplier applies only when a tier-0 staker record IS supplied, bounding
the cap at 500,000,000 = 1,000,000,000 * 50 / 100, beyond which the call
fails `ExceedsTierLimit`. -/
theorem c1_no_record_no_tier_check (config : ProtocolConfig) (pool : FogPool)
    (fpk sk ik cap plen : Nat) (expires now : Int) (st : Staker)
    (hcap : cap ≠ 0) (hplen : plen ≤ 64) (hexp : now < expires)
    (hpool : pool.active_authorizations + 1 ≤ U64MAX) (hst : st.tier = 0) :
    errOf (create_authorization config pool none fpk sk ik cap expires now plen)
      = none ∧
    (500000000 < cap →
      create_authorization config pool (some st) fpk sk ik cap expires now plen
        = .error .ExceedsTierLimit) := by
  have h2 : ¬ (64 < plen) := by omega
  have h3 : ¬ (expires ≤ now) := by omega
  constructor
  · simp [create_authorization, errOf, checkedAdd64, hcap, h2, h3, hpool]
  · intro hgt
    have h4 : get_max_cap_for_tier st.tier config < cap := by
      have h5 : get_max_cap_for_tier 0 config = 500000000 := by
        show toU64 (((checkedMul128 1000000000 50).getD 0) / 100) = 500000000
        decide
      rw [hst, h5]; exact hgt
    simp [create_authorization, hcap, h2, h3, h4]

/-- C1 (witness): the amended theorem at a concrete input — cap
600,000,000 with no staker record succeeds; the same cap with a tier-0
record fails `ExceedsTierLimit`. -/
theorem c1_witness :
    errOf (create_authorization cfg0 pool0 none 7 8 9 600000000 100 0 0) = none ∧
    (500000000 < 600000000 →
      create_authorization cfg0 pool0 (some tier0Staker) 7 8 9 600000000 100 0 0
        = .error .ExceedsTierLimit) :=
  c1_no_record_no_tier_check cfg0 pool0 7 8 9 600000000 0 100 0 tier0Staker
    (by decide) (by decide) (by decide) (by decide) rfl

/-- C2 (counterexample): with `total_staked == 0`, `distribute_fees`
returns the `NoStakers` error (lib.rs:233), not success. -/
theorem c2_counterexample :
    cfg0.total_staked = 0 ∧
    errOf (distribute_fees cfg0 stakerA) = some ShadeError.NoStakers := by
  exact ⟨rfl, rfl⟩

/-- C2 (amended): in every state with `total_staked == 0`,
`distribute_fees` fails with `NoStakers` — a failure mutates no state
and emits no event, but it is an error, not a successful no-op. -/
theorem c2_no_stakers_error (config : ProtocolConfig) (staker : Staker)
    (h : config.total_staked = 0) :
    distribute_fees config staker = .error .NoStakers := by
  unfold distribute_fees
  simp [h]

/-- C2 (witness): the amended theorem at a concrete zero-stake state. -/
theorem c2_witness : distribute_fees cfg0 stakerA = .error .NoStakers :=
  c2_no_stakers_error cfg0 stakerA rfl

/-- C3: the invariant `total_fees_distributed ≤ total_fees_collected`
is violated in a state reachable from protocol initialization:
`c3_trace` (initialize, two stakes of 50, a spend collecting a fee of
100, `distribute_fees` twice for staker A and once for staker B, then
both claims) ends with `total_fees_collected = 100` but
`total_fees_distributed = 150`, because `distribute_fees` credits
proportional shares of the same undistributed pool repeatedly without
ever advancing `total_fees_distributed`. -/
theorem c3_distributed_exceeds_collected :
    c3_totals = some (100, 150) ∧ ¬ (150 ≤ 100) := by
  exact ⟨rfl, by decide⟩

/-- C8: revoking an already-inactive authorization fails
`AuthorizationInactive` (and, failing, changes nothing); revoking an
active one flips `is_active` to false and saturating-decrements the
pool's `active_authorizations`, changing nothing else. -/
theorem c8_revoke_semantics (a : Authorization) (pool : FogPool) :
    (a.is_active = false →
       revoke_authorization a pool = .error .AuthorizationInactive) ∧
    (a.is_active = true →
       revoke_authorization a pool =
         .ok ({ a with is_active := false },
              { pool with
                  active_authorizations := pool.active_authorizations - 1 })) := by
  constructor
  · intro h
    unfold revoke_authorization
    simp [h]
  · intro h
    unfold revoke_authorization
    simp [h]

/-- C8 (witness): both branches at concrete inputs. -/
theorem c8_witness :
    revoke_authorization authInactive pool0 = .error .AuthorizationInactive ∧
    revoke_authorization authEx pool0 =
      .ok ({ authEx with is_active := false },
           { pool0 with
               active_authorizations := pool0.active_authorizations - 1 }) :=
  ⟨(c8_revoke_semantics authInactive pool0).1 rfl,
   (c8_revoke_semantics authEx pool0).2 rfl⟩

/-- C10: `unstake` with `amount == 0` fails `InvalidAmount` in every
state (the check at lib.rs:134 precedes the `InsufficientStake` check at
lib.rs:135, so `InvalidAmount` wins regardless of the staked balance),
with no state change. -/
theorem c10_unstake_zero_invalid (st : Staker) (config : ProtocolConfig) :
    unstake st config 0 = .error .InvalidAmount := by
  unfold unstake
  simp

/-- C10 (witness): the theorem at a concrete input. -/
theorem c10_witness : unstake freshStaker cfg0 0 = .error .InvalidAmount :=
  c10_unstake_zero_invalid freshStaker cfg0

/-- C4: along any sequence of successful operations after creation
(`AuthStep`), an authorization's `amount_spent` never decreases and
never exceeds its (unchanged) `spending_cap`; only `spend` increases
`amount_spent`, by exactly the spent amount (`revoke_authorization`
leaves it unchanged, and creation starts it at 0). -/
theorem c4_spent_monotone_capped :
    (∀ a b : Authorization, a.amount_spent ≤ a.spending_cap →
       Relation.ReflTransGen AuthStep a b →
       a.amount_spent ≤ b.amount_spent ∧ b.amount_spent ≤ b.spending_cap ∧
       b.spending_cap = a.spending_cap) ∧
    (∀ (a : Authorization) (pool : FogPool) (config : ProtocolConfig)
       (amount : Nat) (now : Int) (r : SpendResult),
       spend a pool config amount now = Except.ok r →
       r.authorization.amount_spent = a.amount_spent + amount) ∧
    (∀ (a : Authorization) (pool : FogPool) (aNext : Authorization)
       (poolNext : FogPool),
       revoke_authorization a pool = Except.ok (aNext, poolNext) →
       aNext.amount_spent = a.amount_spent) ∧
    (∀ (config : ProtocolConfig) (pool : FogPool) (staker : Option Staker)
       (fpk sk ik cap : Nat) (expires now : Int) (plen : Nat)
       (auth : Authorization) (poolNext : FogPool),
       create_authorization config pool staker fpk sk ik cap expires now plen
         = Except.ok (auth, poolNext) →
       auth.amount_spent = 0) := by
  refine ⟨?_, ?_, ?_, ?_⟩
  · intro a b hinv hreach
    induction hreach with
    | refl => exact ⟨Nat.le_refl _, hinv, rfl⟩
    | tail hsteps hstep ih =>
      obtain ⟨ih1, ih2, ih3⟩ := ih
      obtain ⟨s1, s2, s3⟩ := authStep_spec hstep
      exact ⟨ih1.trans s1, s3 ih2, by rw [s2, ih3]⟩
  · intro a pool config amount now r h
    exact (spend_ok_spec h).1
  · intro a pool aNext poolNext h
    obtain ⟨h1, -⟩ := revoke_ok_spec h
    rw [h1]
  · intro config pool staker fpk sk ik cap expires now plen auth poolNext h
    exact (create_ok_spec h).1

/-- C4 (witness): the reachability conjunct applied to the concrete
authorization `authEx` and the empty step sequence. -/
theorem c4_witness :
    authEx.amount_spent ≤ authEx.amount_spent ∧
    authEx.amount_spent ≤ authEx.spending_cap ∧
    authEx.spending_cap = authEx.spending_cap :=
  c4_spent_monotone_capped.1 authEx authEx (by decide) Relation.ReflTransGen.refl

/-- C5: for every successful spend at a fee rate of at most 1000 bps
(the only rates `initialize_protocol`/`update_fee` admit) on a `u64`
amount, the fee is exactly `floor(amount * fee_bps / 10000)` (the
widened 128-bit multiply never overflows and the `as u64` cast never
truncates), the net amount is `amount - fee`, and `fee + net == amount`
exactly. -/
theorem c5_fee_net_exact (config : ProtocolConfig) (a : Authorization)
    (pool : FogPool) (amount : Nat) (now : Int) (r : SpendResult)
    (hbps : config.fee_basis_points ≤ 1000) (hamt : amount ≤ U64MAX)
    (h : spend a pool config amount now = Except.ok r) :
    r.fee = amount * config.fee_basis_points / 10000 ∧
    r.net_amount = amount - r.fee ∧
    r.fee + r.net_amount = amount := by
  obtain ⟨-, -, -, -, -, hfee, hfle, hnet, -⟩ := spend_ok_spec h
  have hle : amount * config.fee_basis_points / 10000 ≤ amount := by
    calc amount * config.fee_basis_points / 10000
        ≤ amount * 10000 / 10000 :=
          Nat.div_le_div_right (Nat.mul_le_mul_left _ (by omega))
      _ = amount := by omega
  have hmod : toU64 (amount * config.fee_basis_points / 10000)
      = amount * config.fee_basis_points / 10000 := by
    unfold toU64
    apply Nat.mod_eq_of_lt
    unfold U64MAX at hamt
    omega
  refine ⟨hfee.trans hmod, hnet, ?_⟩
  rw [hnet, Nat.add_sub_cancel' hfle]

/-- C5 (witness): the spec scenario — fee rate 100 bps, cap 1,000,000,
spend 100,000 — through the theorem: fee 1,000, net 99,000, exact sum. -/
theorem c5_witness :
    c5r.fee = 100000 * cfg0.fee_basis_points / 10000 ∧
    c5r.net_amount = 100000 - c5r.fee ∧
    c5r.fee + c5r.net_amount = 100000 :=
  c5_fee_net_exact cfg0 auth1M pool0 100000 0 c5r (by decide) (by decide) rfl

/-- C7 (counterexample): an authorization whose `amount_spent` equals
its `spending_cap` does NOT reject every subsequent spend with
`ExceedsSpendingCap`: a spend of amount 0 succeeds (`spend` never
requires a positive amount), so the claim's "every subsequent spend
fails" is false as stated. -/
theorem c7_counterexample :
    authEx.amount_spent = authEx.spending_cap ∧
    errOf (spend authEx pool0 cfg0 0 0) = none := by
  exact ⟨rfl, rfl⟩

/-- C7 (amended): `spend` fails `AuthorizationInactive` when
`is_active` is false; when active, fails `AuthorizationExpired` when
the current time has reached `expires_at`; when active and unexpired,
fails `ExceedsSpendingCap` when `amount` exceeds the remaining
`spending_cap - amount_spent`; a successful spend never changes
`is_active`, so an exhausted authorization stays active, and every
subsequent spend of a POSITIVE amount fails `ExceedsSpendingCap`
(a spend of amount 0 still succeeds). -/
theorem c7_spend_guards (a : Authorization) (pool : FogPool)
    (config : ProtocolConfig) (amount : Nat) (now : Int) (r : SpendResult) :
    (a.is_active = false →
       spend a pool config amount now = .error .AuthorizationInactive) ∧
    (a.is_active = true → a.expires_at ≤ now →
       spend a pool config amount now = .error .AuthorizationExpired) ∧
    (a.is_active = true → now < a.expires_at →
       a.amount_spent ≤ a.spending_cap →
       a.spending_cap - a.amount_spent < amount →
       spend a pool config amount now = .error .ExceedsSpendingCap) ∧
    (spend a pool config amount now = Except.ok r →
       r.authorization.is_active = a.is_active) ∧
    (a.is_active = true → now < a.expires_at →
       a.amount_spent = a.spending_cap → 0 < amount →
       spend a pool config amount now = .error .ExceedsSpendingCap) := by
  refine ⟨?_, ?_, ?_, ?_, ?_⟩
  · intro h1
    unfold spend
    simp [h1]
  · intro h1 h2
    unfold spend
    simp [h1, h2]
  · intro h1 h2 h3 h4
    have h2n : ¬ (a.expires_at ≤ now) := by omega
    unfold spend
    simp [h1, h2n, checkedSub, h3, h4]
  · intro h
    exact (spend_ok_spec h).2.2.1
  · intro h1 h2 h3 h4
    have h2n : ¬ (a.expires_at ≤ now) := by omega
    have h3le : a.amount_spent ≤ a.spending_cap := Nat.le_of_eq h3
    have h4' : a.spending_cap - a.amount_spent < amount := by omega
    unfold spend
    simp [h1, h2n, checkedSub, h3le, h4']

/-- C7 (witness): the exhausted authorization `authEx` rejects a spend
of 1 with `ExceedsSpendingCap`. -/
theorem c7_witness :
    spend authEx pool0 cfg0 1 0 = .error .ExceedsSpendingCap :=
  (c7_spend_guards authEx pool0 cfg0 1 0 default).2.2.2.2 rfl (by decide) rfl
    (by decide)

/-- C6: `calculate_tier` is a pure total function returning the highest
tier (at most 3) whose threshold is met by the staked amount under `≥`
comparisons (gold, then silver, then bronze, first match winning, 0 when
none is met) — formalized as: the returned tier is in 0..3, its own
threshold is met, and it dominates every tier in 0..3 whose threshold is
met; moreover after every successful `stake` or `unstake` the stored
`tier` field equals `calculate_tier` of the updated staked amount under
the resulting configuration. -/
theorem c6_tier_correct :
    (∀ (s : Nat) (config : ProtocolConfig),
       calculate_tier s config ≤ 3 ∧
       tier_meets config s (calculate_tier s config) = true ∧
       (∀ t, t ≤ 3 → tier_meets config s t = true →
          t ≤ calculate_tier s config)) ∧
    (∀ (userKey : Nat) (st : Staker) (config : ProtocolConfig)
       (amount : Nat) (now : Int) (st1 : Staker) (cfg1 : ProtocolConfig),
       stake userKey st config amount now = Except.ok (st1, cfg1) →
       st1.tier = calculate_tier st1.staked_amount cfg1) ∧
    (∀ (st : Staker) (config : ProtocolConfig) (amount : Nat)
       (st1 : Staker) (cfg1 : ProtocolConfig),
       unstake st config amount = Except.ok (st1, cfg1) →
       st1.tier = calculate_tier st1.staked_amount cfg1) := by
  refine ⟨fun s config => ⟨?_, ?_, ?_⟩, ?_, ?_⟩
  · unfold calculate_tier
    split_ifs <;> omega
  · unfold calculate_tier tier_meets
    split_ifs with h1 h2 h3
    · simp [h1]
    · simp [h2]
    · simp [h3]
    · rfl
  · intro t ht hmeets
    interval_cases t
    · exact Nat.zero_le _
    · unfold tier_meets at hmeets
      simp only [decide_eq_true_eq] at hmeets
      unfold calculate_tier
      split_ifs <;> omega
    · unfold tier_meets at hmeets
      simp only [decide_eq_true_eq] at hmeets
      unfold calculate_tier
      split_ifs <;> omega
    · unfold tier_meets at hmeets
      simp only [decide_eq_true_eq] at hmeets
      unfold calculate_tier
      split_ifs
      omega
  · intro userKey st config amount now st1 cfg1 h
    obtain ⟨-, htier, hcfg, -⟩ := stake_ok_spec h
    subst hcfg
    exact htier
  · intro st config amount st1 cfg1 h
    obtain ⟨-, -, htier, hcfg, -⟩ := unstake_ok_spec h
    subst hcfg
    exact htier

/-- C6 (witness): the maximality conjunct at a staked amount exactly on
the silver threshold (tie resolves upward to tier 2), and the stake
conjunct at the concrete stake of the C9 round trip. -/
theorem c6_witness :
    2 ≤ calculate_tier 1000000000 cfg0 ∧
    c9p1.1.tier = calculate_tier c9p1.1.staked_amount c9p1.2 :=
  ⟨(c6_tier_correct.1 1000000000 cfg0).2.2 2 (by decide) (by decide),
   c6_tier_correct.2.1 2 freshStaker cfg0 100 4 c9p1.1 c9p1.2 rfl⟩

/-- C9: from a staker with nothing staked (fresh account or existing
zero-balance record) and positive thresholds, a successful stake of `X`
followed by a successful unstake of `X` leaves the staker at tier 0 with
a zero balance and restores the protocol's `total_staked` to its
pre-stake value. -/
theorem c9_round_trip (userKey : Nat) (st : Staker) (config : ProtocolConfig)
    (X : Nat) (now : Int) (st1 : Staker) (cfg1 : ProtocolConfig)
    (st2 : Staker) (cfg2 : ProtocolConfig)
    (h0 : st.staked_amount = 0)
    (hb : 0 < config.bronze_threshold) (hs : 0 < config.silver_threshold)
    (hg : 0 < config.gold_threshold)
    (h1 : stake userKey st config X now = Except.ok (st1, cfg1))
    (h2 : unstake st1 cfg1 X = Except.ok (st2, cfg2)) :
    st2.tier = 0 ∧ st2.staked_amount = 0 ∧
    cfg2.total_staked = config.total_staked := by
  obtain ⟨e1, -, e3, -⟩ := stake_ok_spec h1
  obtain ⟨f1, -, f3, f4, -⟩ := unstake_ok_spec h2
  have hst1 : st1.staked_amount = X := by
    rw [e1, h0]
    simp
  have hst2 : st2.staked_amount = 0 := by
    rw [f1, hst1]
    omega
  have hth : cfg1.bronze_threshold = config.bronze_threshold ∧
      cfg1.silver_threshold = config.silver_threshold ∧
      cfg1.gold_threshold = config.gold_threshold := by
    rw [e3]
    exact ⟨rfl, rfl, rfl⟩
  have htier : st2.tier = 0 := by
    rw [f3, hst2]
    unfold calculate_tier
    split_ifs <;> omega
  have h5 : cfg1.total_staked = config.total_staked + X := by rw [e3]
  have h6 : cfg2.total_staked = cfg1.total_staked - X := by rw [f4]
  exact ⟨htier, hst2, by omega⟩

/-- C9 (witness): the round trip at a concrete input — stake 100 from a
fresh account into the initialized protocol, then unstake 100. -/
theorem c9_witness :
    c9p2.1.tier = 0 ∧ c9p2.1.staked_amount = 0 ∧
    c9p2.2.total_staked = cfg0.total_staked :=
  c9_round_trip 2 freshStaker cfg0 100 4 c9p1.1 c9p1.2 c9p2.1 c9p2.2
    rfl (by decide) (by decide) (by decide) rfl rfl

end Shade
